import Mathlib

/-!
Verification of the shraga monitoring service against its specification.

The Go source is shallowly embedded: durations and timestamps are `Int`
nanoseconds (Go `time.Duration` / `time.Time` since the zero time, so the
Go zero `time.Time` is `0`), machine integers are `Int`, fallible calls
return `Option`/`Except`, and the database table of HTTP monitors is a
`List HttpMonitor`.  Network and clock effects consumed by a probe are
gathered in an explicit `HttpWorld` record.
-/

namespace Shraga

/-- One nanosecond-denominated second (Go `time.Second`). -/
def nsSecond : Int := 1000000000

/-- Go `time.Minute` in nanoseconds. -/
def nsMinute : Int := 60 * nsSecond

/-- Go `time.Hour` in nanoseconds. -/
def nsHour : Int := 60 * nsMinute

/-- `defaultHttpClientTimeout = 30 * time.Second` (http_monitor.go:21). -/
def defaultHttpClientTimeout : Int := 30 * nsSecond

/-- `maxHttpClientTimeout = 5 * time.Minute` (http_monitor.go:22). -/
def maxHttpClientTimeout : Int := 5 * nsMinute

/-- `minHttpClientTimeout = 1 * time.Second` (http_monitor.go:23). -/
def minHttpClientTimeout : Int := 1 * nsSecond

/-- The `30*24*time.Hour` certificate-expiry warning window
(http_monitor.go:218). -/
def warnWindow : Int := 30 * 24 * nsHour

/-- `MonitorType` (monitor.go:13-18). -/
inductive MonitorType where
  | Unknown
  | HTTP
deriving DecidableEq, Repr

/-- `Result` (monitor.go:21-28): outcome of one probe. -/
inductive Result where
  | Unknown
  | Up
  | Down
  | Warn
deriving DecidableEq, Repr

/-- `BaseMonitor` (monitor.go:49-59).  `interval`/`intervalInt` mirror the
`Interval time.Duration` / `IntervalInt int64` pair; `CreatedAt`/`UpdatedAt`
bookkeeping columns are not used by any claim and are omitted. -/
structure BaseMonitor where
  id : Nat
  type : MonitorType
  intervalInt : Int
  interval : Int
  enabled : Bool
  lastMonitorTime : Int
  isMonitoring : Bool
deriving DecidableEq, Repr

/-- `HttpMonitor` (http_monitor.go:58-74).  The Go struct embeds
`BaseMonitor`; the `...JSON` mirror columns for status codes and headers
(pure serialization, untouched by any claim) are omitted, and `reqHeaders`
is kept as an association list. -/
structure HttpMonitor extends BaseMonitor where
  address : String
  validStatusCodes : List Int
  shouldWarnOnSSLExpiry : Bool
  shouldCheckSSL : Bool
  expectedResponse : String
  shouldCheckResponse : Bool
  reqBody : String
  reqContentType : String
  reqHeaders : List (String × String)
  requestMethod : String
  reqTimeoutInt : Int
  reqTimeout : Int
deriving DecidableEq, Repr

/-- `SSLDetails` (http_monitor.go:35-38).  The zero `time.Time` expiry of a
freshly zeroed struct is `0`. -/
structure SSLDetails where
  valid : Bool
  expiry : Int
deriving DecidableEq, Repr

/-- `BaseMonitorResponse` (monitor.go:34-40) flattened together with
`HttpResponse` (http_monitor.go:26-32), which embeds it. -/
structure HttpResponse where
  id : Nat
  monitorId : Nat
  responseTime : Int
  result : Result
  errorMsg : String
  sslResp : SSLDetails
  latency : Int
  dataValid : Bool
  statusCodeValid : Bool
deriving DecidableEq, Repr

/-- The timeout-clamping branch of `HttpMonitor.BeforeSave`
(http_monitor.go:100-107): zero timeout becomes the 30s default, larger
than 5m is cut to 5m, smaller than 1s is raised to 1s. -/
def clampTimeoutBeforeSave (t : Int) : Int :=
  if t = 0 then defaultHttpClientTimeout
  else if t > maxHttpClientTimeout then maxHttpClientTimeout
  else if t < minHttpClientTimeout then minHttpClientTimeout
  else t

/-- The timeout branch of `HttpMonitor.AfterFind` (http_monitor.go:135-140):
the stored integer is reclamped into `[1s, 5m]` (no zero-default branch). -/
def clampTimeoutAfterFind (t : Int) : Int :=
  if t > maxHttpClientTimeout then maxHttpClientTimeout
  else if t < minHttpClientTimeout then minHttpClientTimeout
  else t

/-- `HttpMonitor.BeforeSave` (http_monitor.go:76-110) restricted to the
fields it mutates: the base hook serializes `interval` into `intervalInt`
(monitor.go:61-65), then the request timeout is clamped and persisted into
`reqTimeoutInt`.  The JSON marshalling of status codes and headers writes
only the omitted mirror columns. -/
def HttpMonitor.BeforeSave (hm : HttpMonitor) : HttpMonitor :=
  let t := clampTimeoutBeforeSave hm.reqTimeout
  { hm with intervalInt := hm.interval, reqTimeout := t, reqTimeoutInt := t }

/-- `HttpMonitor.AfterFind` (http_monitor.go:112-143) restricted to the
fields it mutates: the base hook deserializes `intervalInt` into `interval`
(monitor.go:67-71), then `reqTimeout` is rebuilt from `reqTimeoutInt` and
clamped. -/
def HttpMonitor.AfterFind (hm : HttpMonitor) : HttpMonitor :=
  { hm with interval := hm.intervalInt,
            reqTimeout := clampTimeoutAfterFind hm.reqTimeoutInt }

/-- The monitors table owned by `GormDb`: one row per `HttpMonitor`. -/
abbrev Store := List HttpMonitor

/-- `GormDb.Lock` (monitor.go:181-193, i.e. gorm_db.go): a single
`UPDATE ... SET is_monitoring = true WHERE id = ?`.  `RowsAffected` is the
number of rows matching the `WHERE` clause; when it is zero the formatted
not-found error is returned.  Returns the updated table and `none` on
success, `some msg` on error. -/
def GormDb.Lock (store : Store) (monId : Nat) : Store × Option String :=
  let affected := (List.filter (fun m => m.id == monId) store).length
  let updated := List.map
    (fun m => if m.id == monId then { m with isMonitoring := true } else m) store
  (updated,
    if affected = 0 then
      some ("monitor with ID " ++ toString monId ++ " not found")
    else none)

/-- `GormDb.Unlock` (monitor.go:195-210): a single
`UPDATE ... SET is_monitoring = false, last_monitor_time = now() WHERE id = ?`,
with the same zero-`RowsAffected` not-found error as `Lock`.  `nowTime` is
the `now()` evaluated inside the update. -/
def GormDb.Unlock (store : Store) (monId : Nat) (nowTime : Int) :
    Store × Option String :=
  let affected := (List.filter (fun m => m.id == monId) store).length
  let updated := List.map
    (fun m => if m.id == monId then
        { m with isMonitoring := false, lastMonitorTime := nowTime } else m) store
  (updated,
    if affected = 0 then
      some ("monitor with ID " ++ toString monId ++ " not found")
    else none)

/-- `GormDb.GetMonitorsToRun` (monitor.go:163-179): the SQL query keeps rows
with `enabled = true AND is_monitoring = false`, then the Go loop keeps the
monitors with `LastMonitorTime.Add(Interval).Before(nowTime)`, i.e. a strict
`lastMonitorTime + interval < now`. -/
def GormDb.GetMonitorsToRun (store : Store) (nowTime : Int) : List HttpMonitor :=
  let monitors := List.filter (fun m => m.enabled && !m.isMonitoring) store
  List.filter (fun m => decide (m.lastMonitorTime + m.interval < nowTime)) monitors

/-- Behaviour of `mon.Monitor(ctx)` inside `Manager.work`, as seen by the
worker: either it returns a result value or the probe panics. -/
inductive ProbeBehavior where
  | ok (r : HttpResponse)
  | panics
deriving DecidableEq, Repr

/-- Behaviour of `m.db.SaveResult` inside `Manager.work`. -/
inductive SaveBehavior where
  | ok
  | fails (e : String)
deriving DecidableEq, Repr

/-- How one call of `Manager.work` ended. -/
inductive WorkExit where
  | lockFailed (e : String)
  | panicked
  | saveFailed (e : String)
  | completed
deriving DecidableEq, Repr

/-- `Manager.work` (http_monitor_test.go:271-291, i.e. manager.go): lock the
monitor, and on success register `defer m.db.Unlock(...)`; then run the probe
and save its result.  Go's `defer` runs the unlock on every exit path taken
after a successful lock — normal return, `SaveResult` error return, and
panic unwinding of `mon.Monitor` — which the embedding reflects by applying
`GormDb.Unlock` in each of those branches.  `unlockTime` is the `now()`
evaluated inside the deferred unlock. -/
def Manager.work (store : Store) (monId : Nat) (probe : ProbeBehavior)
    (save : SaveBehavior) (unlockTime : Int) : Store × WorkExit :=
  match GormDb.Lock store monId with
  | (s1, some e) => (s1, WorkExit.lockFailed e)
  | (s1, none) =>
    match probe with
    | ProbeBehavior.panics =>
        ((GormDb.Unlock s1 monId unlockTime).1, WorkExit.panicked)
    | ProbeBehavior.ok _ =>
      match save with
      | SaveBehavior.fails e =>
          ((GormDb.Unlock s1 monId unlockTime).1, WorkExit.saveFailed e)
      | SaveBehavior.ok =>
          ((GormDb.Unlock s1 monId unlockTime).1, WorkExit.completed)

/-- The effects consumed by one run of `HttpMonitor.Monitor`
(http_monitor.go:145-225).  `reqErr` is the error of
`http.NewRequestWithContext` if any; `sslConn` is the outcome of the
`tls.Dial` in `checkSSL` (`none` for a URL-parse or connection/handshake
failure, `some e` for success with leaf-certificate expiry `e`);
`doResult` is the outcome of `client.Do` (transport error text, or the
response status code); `bodyResult` is the outcome of `io.ReadAll` on the
response body; `startNow` is `now()` taken at line 152, `latencyMs` the
elapsed milliseconds measured at line 191, and `warnNow` the `now()`
evaluated in the expiry comparison at line 218. -/
instance exceptDecEq {ε α : Type} [DecidableEq ε] [DecidableEq α] :
    DecidableEq (Except ε α)
  | Except.error a, Except.error b =>
    if h : a = b then isTrue (by rw [h])
    else isFalse (by intro hc; cases hc; exact h rfl)
  | Except.error _, Except.ok _ => isFalse (by intro hc; cases hc)
  | Except.ok _, Except.error _ => isFalse (by intro hc; cases hc)
  | Except.ok a, Except.ok b =>
    if h : a = b then isTrue (by rw [h])
    else isFalse (by intro hc; cases hc; exact h rfl)

structure HttpWorld where
  reqErr : Option String
  sslConn : Option Int
  doResult : Except String Int
  bodyResult : Except String String
  startNow : Int
  latencyMs : Int
  warnNow : Int
deriving DecidableEq, Repr

/-- `HttpMonitor.checkSSL` (http_monitor.go:228-259): any URL-parse or
`tls.Dial` failure yields `Valid=false` with the zero expiry; success
records `Valid=true` and the leaf certificate's `NotAfter`. -/
def HttpMonitor.checkSSL (w : HttpWorld) : SSLDetails :=
  match w.sslConn with
  | none => { valid := false, expiry := 0 }
  | some e => { valid := true, expiry := e }

/-- `HttpMonitor.Monitor` (http_monitor.go:145-225).  Returns the
`HttpResponse` paired with a flag recording whether `io.ReadAll` ran on the
response body (the only observation of the body-read effect).  The result is
initialised to `ResultDown` with the monitor's id and `now()`; a request
build error or transport error returns it with only `errorMsg` set; then
latency and status-code membership are recorded, an unaccepted status
returns `Down` before the body is touched; with body checking enabled the
body is read and compared for exact equality; finally the warn-or-up
decision compares the recorded SSL expiry against `now + 30 days`. -/
def HttpMonitor.Monitor (hm : HttpMonitor) (w : HttpWorld) :
    HttpResponse × Bool :=
  let monitorResult : HttpResponse :=
    { id := 0, monitorId := hm.id, responseTime := w.startNow,
      result := Result.Down, errorMsg := "",
      sslResp := { valid := false, expiry := 0 },
      latency := 0, dataValid := false, statusCodeValid := false }
  match w.reqErr with
  | some e => ({ monitorResult with errorMsg := e }, false)
  | none =>
    let monitorResult :=
      if hm.shouldCheckSSL || hm.shouldWarnOnSSLExpiry then
        { monitorResult with sslResp := HttpMonitor.checkSSL w }
      else monitorResult
    match w.doResult with
    | Except.error e => ({ monitorResult with errorMsg := e }, false)
    | Except.ok statusCode =>
      let monitorResult :=
        { monitorResult with
            latency := w.latencyMs,
            statusCodeValid := hm.validStatusCodes.contains statusCode }
      if !monitorResult.statusCodeValid then
        ({ monitorResult with result := Result.Down }, false)
      else
        let warnOrUp := fun (r : HttpResponse) =>
          if hm.shouldWarnOnSSLExpiry &&
              decide (r.sslResp.expiry - w.warnNow < warnWindow) then
            { r with result := Result.Warn }
          else
            { r with result := Result.Up }
        if hm.shouldCheckResponse then
          match w.bodyResult with
          | Except.error e => ({ monitorResult with errorMsg := e }, true)
          | Except.ok gotResp =>
            if gotResp ≠ hm.expectedResponse then
              ({ monitorResult with
                  errorMsg := "response is not as expected: " ++ gotResp }, true)
            else
              (warnOrUp monitorResult, true)
        else
          (warnOrUp monitorResult, false)

/-- `maxWorkers = 10` (manager.go, http_monitor_test.go:191). -/
def maxWorkers : Nat := 10

/-- Atomic actions still to be performed by the manager's goroutines once
the run context has been cancelled. -/
inductive MgrOp where
  | returnErr
  | closeChan
  | wgDone
  | wgWait
deriving DecidableEq, Repr

/-- What `Manager.Run`'s main loop does after it observes `ctx.Done()`
(http_monitor_test.go:250-251 / manager.go): `return ctx.Err()`, nothing
else — in particular no wait-group wait. -/
def runCancelProg : List MgrOp := [MgrOp.returnErr]

/-- What the dedicated closer goroutine (http_monitor_test.go:243-246) does
after `<-ctx.Done()`: `close(m.doWorkCh)`. -/
def closerProg : List MgrOp := [MgrOp.closeChan]

/-- What each pool worker (http_monitor_test.go:212-232) does once it
observes cancellation or channel closure: return, running the deferred
`m.wg.Done()`. -/
def workerCancelProg : List MgrOp := [MgrOp.wgDone]

/-- Interleaving state of the manager's goroutines after cancellation:
the remaining program of the main loop, of the closer goroutine and of each
worker, plus the dispatch-channel flag, the wait-group counter and whether
`Run` has returned. -/
structure MgrState where
  main : List MgrOp
  closer : List MgrOp
  workers : List (List MgrOp)
  chanClosed : Bool
  wg : Nat
  returned : Bool
deriving DecidableEq, Repr

/-- The state right after the run context is cancelled: every goroutine has
observed (or will observe) cancellation, the pool's `maxWorkers` workers are
still in their loops, `m.wg` holds one count per worker
(http_monitor_test.go:211), the channel is open and `Run` has not returned. -/
def cancelledInit : MgrState :=
  { main := runCancelProg, closer := closerProg,
    workers := List.replicate maxWorkers workerCancelProg,
    chanClosed := false, wg := maxWorkers, returned := false }

/-- One interleaving step: some goroutine executes the head action of its
remaining program.  `returnErr` makes `Run` return, `closeChan` closes the
dispatch channel, `wgDone` retires a worker and decrements the wait-group.
No step is conditioned on the other goroutines, matching the code: `Run`'s
`return ctx.Err()` in particular does not wait for anything. -/
inductive MgrStep : MgrState → MgrState → Prop where
  | main (s : MgrState) (rest : List MgrOp) :
      s.main = MgrOp.returnErr :: rest →
      MgrStep s { s with main := rest, returned := true }
  | closer (s : MgrState) (rest : List MgrOp) :
      s.closer = MgrOp.closeChan :: rest →
      MgrStep s { s with closer := rest, chanClosed := true }
  | worker (s : MgrState) (pre : List (List MgrOp)) (rest : List MgrOp)
      (post : List (List MgrOp)) :
      s.workers = pre ++ (MgrOp.wgDone :: rest) :: post →
      MgrStep s { s with workers := pre ++ rest :: post, wg := s.wg - 1 }

/-- States the cancelled manager can reach by interleaving its goroutines. -/
def MgrReachable (s : MgrState) : Prop :=
  Relation.ReflTransGen MgrStep cancelledInit s

/-- The state in which `Run` has already returned while the dispatch channel
is still open and all `maxWorkers` workers are still running. -/
def earlyReturnState : MgrState :=
  { main := [], closer := closerProg,
    workers := List.replicate maxWorkers workerCancelProg,
    chanClosed := false, wg := maxWorkers, returned := true }

/-- The fully shut-down state: `Run` returned, channel closed, every worker
exited and the wait-group drained to zero. -/
def shutdownState : MgrState :=
  { main := [], closer := [], workers := List.replicate maxWorkers [],
    chanClosed := true, wg := 0, returned := true }

/-- A concrete enabled, unlocked HTTP monitor used to instantiate the
theorems: id 1, 5ns interval, last run at the origin. -/
def sampleMonitor : HttpMonitor :=
  { id := 1, type := MonitorType.HTTP, intervalInt := 5, interval := 5,
    enabled := true, lastMonitorTime := 0, isMonitoring := false,
    address := "https://example.com", validStatusCodes := [200],
    shouldWarnOnSSLExpiry := false, shouldCheckSSL := false,
    expectedResponse := "ok", shouldCheckResponse := false,
    reqBody := "", reqContentType := "", reqHeaders := [],
    requestMethod := "GET", reqTimeoutInt := 0, reqTimeout := 0 }

/-- `sampleMonitor` already marked in-flight. -/
def lockedMonitor : HttpMonitor := { sampleMonitor with isMonitoring := true }

/-- `sampleMonitor` with the SSL-expiry warning enabled. -/
def warnMonitor : HttpMonitor :=
  { sampleMonitor with shouldWarnOnSSLExpiry := true }

/-- A concrete probe world: request built fine, SSL sub-check failed
(connection error), response status 200 with body "ok". -/
def warnWorld : HttpWorld :=
  { reqErr := none, sslConn := none, doResult := Except.ok 200,
    bodyResult := Except.ok "ok", startNow := 1000, latencyMs := 3,
    warnNow := 1000 }

/-- `sampleMonitor` with body-content validation enabled. -/
def bodyCheckMonitor : HttpMonitor :=
  { sampleMonitor with shouldCheckResponse := true }

/-- `warnWorld` with a body that differs from `sampleMonitor`'s expected
response. -/
def mismatchWorld : HttpWorld := { warnWorld with bodyResult := Except.ok "fail" }

/-- `warnWorld` with an unaccepted 500 status. -/
def badStatusWorld : HttpWorld := { warnWorld with doResult := Except.ok 500 }

/-- `warnWorld` whose main request fails at transport level. -/
def refusedWorld : HttpWorld :=
  { warnWorld with doResult := Except.error "connection refused" }

lemma clampTimeoutBeforeSave_mem (t : Int) :
    minHttpClientTimeout ≤ clampTimeoutBeforeSave t ∧
      clampTimeoutBeforeSave t ≤ maxHttpClientTimeout := by
  unfold clampTimeoutBeforeSave minHttpClientTimeout maxHttpClientTimeout
    defaultHttpClientTimeout nsMinute nsSecond
  split_ifs <;> omega

lemma clampTimeoutAfterFind_mem (t : Int) :
    minHttpClientTimeout ≤ clampTimeoutAfterFind t ∧
      clampTimeoutAfterFind t ≤ maxHttpClientTimeout := by
  unfold clampTimeoutAfterFind minHttpClientTimeout maxHttpClientTimeout
    nsMinute nsSecond
  split_ifs <;> omega

/-- C5: at the data-edit boundary (`HttpMonitor.BeforeSave`) the request
timeout is clamped into `[1s, 5m]`, an unset (zero) timeout becomes the
30-second default, the persisted `reqTimeoutInt` equals the clamped value,
and the timeout rebuilt on load (`HttpMonitor.AfterFind`) satisfies the same
`[1s, 5m]` bounds. -/
theorem C5_stored_timeout_in_range (hm : HttpMonitor) :
    (minHttpClientTimeout ≤ (HttpMonitor.BeforeSave hm).reqTimeoutInt ∧
      (HttpMonitor.BeforeSave hm).reqTimeoutInt ≤ maxHttpClientTimeout) ∧
    (HttpMonitor.BeforeSave hm).reqTimeout = (HttpMonitor.BeforeSave hm).reqTimeoutInt ∧
    (hm.reqTimeout = 0 →
      (HttpMonitor.BeforeSave hm).reqTimeout = defaultHttpClientTimeout) ∧
    (minHttpClientTimeout ≤ (HttpMonitor.AfterFind hm).reqTimeout ∧
      (HttpMonitor.AfterFind hm).reqTimeout ≤ maxHttpClientTimeout) := by
  refine ⟨clampTimeoutBeforeSave_mem hm.reqTimeout, rfl, ?_,
    clampTimeoutAfterFind_mem hm.reqTimeoutInt⟩
  intro h
  simp [HttpMonitor.BeforeSave, clampTimeoutBeforeSave, h]

/-- Witness for C5 at `sampleMonitor`, whose timeout is unset. -/
theorem C5_stored_timeout_in_range_witness :
    (HttpMonitor.BeforeSave sampleMonitor).reqTimeout = defaultHttpClientTimeout :=
  (C5_stored_timeout_in_range sampleMonitor).2.2.1 rfl

/-- C10: the body-match flag `dataValid` of the response produced by
`HttpMonitor.Monitor` is false for every monitor and every world — no code
path ever sets it. -/
theorem C10_dataValid_never_true (hm : HttpMonitor) (w : HttpWorld) :
    (HttpMonitor.Monitor hm w).1.dataValid = false := by
  unfold HttpMonitor.Monitor
  dsimp only
  repeat' split <;> try rfl

/-- C9: a transport-level error of the main request yields a `Down` result
whose message equals the error text, and the probe ends with no further
checks: the status-code flag stays false, no latency is recorded and the
body is never read.  The error is returned as a result value, not
propagated. -/
theorem C9_transport_error_down (hm : HttpMonitor) (w : HttpWorld) (e : String)
    (hreq : w.reqErr = none) (hdo : w.doResult = Except.error e) :
    (HttpMonitor.Monitor hm w).1.result = Result.Down ∧
    (HttpMonitor.Monitor hm w).1.errorMsg = e ∧
    (HttpMonitor.Monitor hm w).1.statusCodeValid = false ∧
    (HttpMonitor.Monitor hm w).1.latency = 0 ∧
    (HttpMonitor.Monitor hm w).2 = false := by
  unfold HttpMonitor.Monitor
  rw [hreq, hdo]
  dsimp only
  split <;> simp

/-- Witness for C9: connection refused against `sampleMonitor`. -/
theorem C9_transport_error_down_witness :
    (HttpMonitor.Monitor sampleMonitor refusedWorld).1.result = Result.Down ∧
    (HttpMonitor.Monitor sampleMonitor refusedWorld).1.errorMsg = "connection refused" :=
  ⟨(C9_transport_error_down sampleMonitor refusedWorld "connection refused" rfl rfl).1,
   (C9_transport_error_down sampleMonitor refusedWorld "connection refused" rfl rfl).2.1⟩

/-- C7: after a completed request the status code is validated by
membership in `validStatusCodes` (so the empty list rejects every code),
and on mismatch the result is `Down` and the probe returns without reading
the response body. -/
theorem C7_status_code_membership (hm : HttpMonitor) (w : HttpWorld)
    (statusCode : Int) (hreq : w.reqErr = none)
    (hdo : w.doResult = Except.ok statusCode) :
    (HttpMonitor.Monitor hm w).1.statusCodeValid
        = hm.validStatusCodes.contains statusCode ∧
    (hm.validStatusCodes = [] →
      (HttpMonitor.Monitor hm w).1.statusCodeValid = false) ∧
    (hm.validStatusCodes.contains statusCode = false →
      (HttpMonitor.Monitor hm w).1.result = Result.Down ∧
      (HttpMonitor.Monitor hm w).2 = false) := by
  unfold HttpMonitor.Monitor
  rw [hreq, hdo]
  dsimp only
  repeat' split
  all_goals try simp_all

/-- Witness for C7: a 500 response against `sampleMonitor`, which accepts
only 200. -/
theorem C7_status_code_membership_witness :
    (HttpMonitor.Monitor sampleMonitor badStatusWorld).1.result = Result.Down ∧
    (HttpMonitor.Monitor sampleMonitor badStatusWorld).2 = false :=
  (C7_status_code_membership sampleMonitor badStatusWorld 500 rfl rfl).2.2 (by decide)

/-- C8: with body-content validation enabled and an accepted status code,
the body is read and compared for exact string equality; on mismatch the
result is `Down` with message `"response is not as expected: <body>"`. -/
theorem C8_body_exact_equality (hm : HttpMonitor) (w : HttpWorld)
    (statusCode : Int) (body : String) (hreq : w.reqErr = none)
    (hdo : w.doResult = Except.ok statusCode)
    (hsc : hm.validStatusCodes.contains statusCode = true)
    (hcr : hm.shouldCheckResponse = true)
    (hbody : w.bodyResult = Except.ok body)
    (hne : body ≠ hm.expectedResponse) :
    (HttpMonitor.Monitor hm w).1.result = Result.Down ∧
    (HttpMonitor.Monitor hm w).1.errorMsg = "response is not as expected: " ++ body ∧
    (HttpMonitor.Monitor hm w).2 = true := by
  unfold HttpMonitor.Monitor
  rw [hreq, hdo, hbody]
  dsimp only
  repeat' split <;> simp_all

/-- Witness for C8: expected "ok", actual "fail". -/
theorem C8_body_exact_equality_witness :
    (HttpMonitor.Monitor bodyCheckMonitor mismatchWorld).1.result = Result.Down ∧
    (HttpMonitor.Monitor bodyCheckMonitor mismatchWorld).1.errorMsg
        = "response is not as expected: fail" ∧
    (HttpMonitor.Monitor bodyCheckMonitor mismatchWorld).2 = true :=
  C8_body_exact_equality bodyCheckMonitor mismatchWorld 200 "fail" rfl rfl
    (by decide) rfl rfl (by decide)

/-- C2 counterexample: with the SSL-expiry warning enabled, a failed SSL
sub-check (certificate NOT valid, zero expiry) and every other check
passing, `HttpMonitor.Monitor` still reports `Warn` — the claimed
"certificate found valid" conjunct of the Warn condition does not hold. -/
theorem C2_warn_without_valid_cert :
    (HttpMonitor.Monitor warnMonitor warnWorld).1.result = Result.Warn ∧
    (HttpMonitor.Monitor warnMonitor warnWorld).1.sslResp.valid = false ∧
    (HttpMonitor.Monitor warnMonitor warnWorld).1.errorMsg = "" := by
  decide

/-- C2 amended: when the request is built, the status code is accepted and
any enabled body check passes, the outcome is `Warn` iff the SSL-expiry
warning is enabled and the recorded expiry (zero when the SSL sub-check
failed) is less than 30 days after now — certificate validity is not
consulted; in every other such case the outcome is `Up`. -/
theorem C2_warn_condition (hm : HttpMonitor) (w : HttpWorld) (statusCode : Int)
    (hreq : w.reqErr = none) (hdo : w.doResult = Except.ok statusCode)
    (hsc : hm.validStatusCodes.contains statusCode = true)
    (hbody : hm.shouldCheckResponse = true →
      ∃ b, w.bodyResult = Except.ok b ∧ b = hm.expectedResponse) :
    ((HttpMonitor.Monitor hm w).1.result = Result.Warn ↔
      (hm.shouldWarnOnSSLExpiry = true ∧
        (HttpMonitor.Monitor hm w).1.sslResp.expiry - w.warnNow < warnWindow)) ∧
    ((HttpMonitor.Monitor hm w).1.result = Result.Warn ∨
      (HttpMonitor.Monitor hm w).1.result = Result.Up) := by
  by_cases hcr : hm.shouldCheckResponse = true
  · obtain ⟨b, hb, hbe⟩ := hbody hcr
    unfold HttpMonitor.Monitor
    rw [hreq, hdo, hb, hbe]
    dsimp only
    repeat' split
    all_goals simp_all
  · unfold HttpMonitor.Monitor
    rw [hreq, hdo]
    dsimp only
    repeat' split
    all_goals simp_all

/-- Witness for C2 at `warnMonitor`/`warnWorld`: the Warn condition of the
amended claim fires. -/
theorem C2_warn_condition_witness :
    (HttpMonitor.Monitor warnMonitor warnWorld).1.result = Result.Warn :=
  ((C2_warn_condition warnMonitor warnWorld 200 rfl rfl (by decide)
      (fun h => absurd h (by decide))).1).mpr ⟨by decide, by decide⟩

/-- C4 counterexample: a monitor that is enabled, not in flight and whose
`lastRunAt + interval` equals `now` satisfies the claimed due predicate
(`lastRunAt + interval ≤ now`) but is not returned by
`GormDb.GetMonitorsToRun`. -/
theorem C4_boundary_not_returned :
    GormDb.GetMonitorsToRun [sampleMonitor] 5 = [] ∧
    sampleMonitor.enabled = true ∧
    sampleMonitor.isMonitoring = false ∧
    sampleMonitor.lastMonitorTime + sampleMonitor.interval ≤ 5 := by
  decide

/-- C4 amended: `GormDb.GetMonitorsToRun` returns exactly the stored
monitors satisfying `enabled && !inFlight && lastRunAt + interval < now`
(strict inequality, not `≤`). -/
theorem C4_due_monitors_strict (store : Store) (nowTime : Int)
    (m : HttpMonitor) :
    m ∈ GormDb.GetMonitorsToRun store nowTime ↔
      m ∈ store ∧ m.enabled = true ∧ m.isMonitoring = false ∧
        m.lastMonitorTime + m.interval < nowTime := by
  unfold GormDb.GetMonitorsToRun
  simp [List.mem_filter, and_assoc]
  tauto

/-- Witness for C4 at a due monitor: `sampleMonitor` one tick past its
interval is returned. -/
theorem C4_due_monitors_strict_witness :
    sampleMonitor ∈ GormDb.GetMonitorsToRun [sampleMonitor] 6 :=
  (C4_due_monitors_strict [sampleMonitor] 6 sampleMonitor).mpr
    ⟨by decide, by decide, by decide, by decide⟩

/-- C1 counterexample: `GormDb.Lock` succeeds on a monitor whose in-flight
flag is already true — the update's WHERE clause matches on the id alone, so
a second claim while one is outstanding also succeeds, and the only failure
it can report is the not-found message. -/
theorem C1_lock_already_locked_succeeds :
    lockedMonitor.isMonitoring = true ∧
    (GormDb.Lock [lockedMonitor] 1).2 = none := by
  decide

/-- C1 amended: `GormDb.Lock` succeeds iff some stored monitor has the given
identifier, irrespective of the in-flight flag; it sets the flag on every
matching row, and its only failure is the single not-found message. -/
theorem C1_lock_succeeds_iff_id_exists (store : Store) (monId : Nat) :
    ((GormDb.Lock store monId).2 = none ↔ ∃ m ∈ store, m.id = monId) ∧
    (∀ m ∈ (GormDb.Lock store monId).1, m.id = monId →
      m.isMonitoring = true) ∧
    (∀ e, (GormDb.Lock store monId).2 = some e →
      e = "monitor with ID " ++ toString monId ++ " not found") := by
  unfold GormDb.Lock
  refine ⟨?_, ?_, ?_⟩
  · dsimp only
    split
    · rename_i h
      rw [List.length_eq_zero, List.filter_eq_nil_iff] at h
      simp only [beq_iff_eq] at h
      simp only [reduceCtorEq, false_iff]
      rintro ⟨m, hm, hid⟩
      exact h m hm hid
    · rename_i h
      rw [List.length_eq_zero, List.filter_eq_nil_iff] at h
      push_neg at h
      obtain ⟨m, hm, hid⟩ := h
      simp only [beq_iff_eq, not_not] at hid
      exact iff_of_true rfl ⟨m, hm, hid⟩
  · intro m hm hid
    dsimp only at hm
    obtain ⟨x, hx, rfl⟩ := List.mem_map.1 hm
    by_cases h : x.id = monId
    · simp [h]
    · simp only [beq_iff_eq, h, if_false] at hid ⊢
  · intro e he
    dsimp only at he
    split at he
    · exact (Option.some_injective _ he).symm
    · exact absurd he (by simp)

/-- Witness for C1: locking the already in-flight `lockedMonitor` succeeds
because a row with id 1 exists. -/
theorem C1_lock_succeeds_iff_id_exists_witness :
    (GormDb.Lock [lockedMonitor] 1).2 = none :=
  ((C1_lock_succeeds_iff_id_exists [lockedMonitor] 1).1).mpr
    ⟨lockedMonitor, by decide, by decide⟩

lemma unlock_clears_and_stamps (s : Store) (monId : Nat) (t : Int) :
    ∀ m ∈ (GormDb.Unlock s monId t).1, m.id = monId →
      m.isMonitoring = false ∧ m.lastMonitorTime = t := by
  intro m hm hid
  unfold GormDb.Unlock at hm
  dsimp only at hm
  obtain ⟨x, hx, rfl⟩ := List.mem_map.1 hm
  by_cases h : x.id = monId
  · simp [h]
  · simp only [beq_iff_eq, h, if_false] at hid ⊢

/-- C3: after a successful claim, `Manager.work` releases the lock on every
exit path — normal completion, persistence failure and probe panic — and
the release (`GormDb.Unlock`) sets the in-flight flag to false and stamps
`lastMonitorTime` with the release time in its single update, regardless of
the probe's outcome. -/
theorem C3_unlock_on_every_exit (store : Store) (monId : Nat)
    (probe : ProbeBehavior) (save : SaveBehavior) (t : Int)
    (hlock : (GormDb.Lock store monId).2 = none) :
    (∀ e, (Manager.work store monId probe save t).2 ≠ WorkExit.lockFailed e) ∧
    (∀ m ∈ (Manager.work store monId probe save t).1, m.id = monId →
      m.isMonitoring = false ∧ m.lastMonitorTime = t) ∧
    (∀ (s : Store) (m : HttpMonitor), m ∈ (GormDb.Unlock s monId t).1 →
      m.id = monId → m.isMonitoring = false ∧ m.lastMonitorTime = t) := by
  refine ⟨?_, ?_, fun s => unlock_clears_and_stamps s monId t⟩
  · intro e
    unfold Manager.work
    cases hL : GormDb.Lock store monId with
    | mk s1 err =>
      cases err with
      | some e2 => rw [hL] at hlock; exact absurd hlock (by simp)
      | none => cases probe <;> cases save <;> simp
  · intro m hm hid
    unfold Manager.work at hm
    cases hL : GormDb.Lock store monId with
    | mk s1 err =>
      cases err with
      | some e2 => rw [hL] at hlock; exact absurd hlock (by simp)
      | none =>
        rw [hL] at hm
        cases probe <;> cases save <;>
          exact unlock_clears_and_stamps s1 monId t m hm hid

/-- Witness for C3: a probe that panics against the freshly locked
`sampleMonitor` still leaves it unlocked with `lastMonitorTime` stamped. -/
theorem C3_unlock_on_every_exit_witness :
    ({ sampleMonitor with isMonitoring := false, lastMonitorTime := 7 } :
        HttpMonitor).isMonitoring = false ∧
    ({ sampleMonitor with isMonitoring := false, lastMonitorTime := 7 } :
        HttpMonitor).lastMonitorTime = 7 :=
  (C3_unlock_on_every_exit [sampleMonitor] 1 ProbeBehavior.panics
      SaveBehavior.ok 7 (by decide)).2.1
    { sampleMonitor with isMonitoring := false, lastMonitorTime := 7 }
    (by decide) (by decide)

lemma mgr_earlyReturn_reachable : MgrReachable earlyReturnState :=
  Relation.ReflTransGen.single (MgrStep.main cancelledInit [] rfl)

lemma mgr_workers_drain (n : Nat) : ∀ (k : Nat) (s : MgrState),
    s.workers = List.replicate k [] ++ List.replicate n workerCancelProg →
    s.wg = n →
    Relation.ReflTransGen MgrStep s
      { s with workers := List.replicate (k + n) [], wg := 0 } := by
  induction n with
  | zero =>
    intro k s hw hwg
    have hs : { s with workers := List.replicate (k + 0) [], wg := 0 } = s := by
      obtain ⟨ma, cl, ws, ch, wg, ret⟩ := s
      simp_all
    rw [hs]
  | succ m ih =>
    intro k s hw hwg
    refine Relation.ReflTransGen.head
      (MgrStep.worker s (List.replicate k []) []
        (List.replicate m workerCancelProg) ?_) ?_
    · rw [hw, List.replicate_succ]
      rfl
    · have hstep := ih (k + 1)
        { s with workers := List.replicate k [] ++ [] ::
            List.replicate m workerCancelProg, wg := s.wg - 1 }
        (by simp [List.replicate_succ', List.append_assoc])
        (by simp [hwg])
      have harr : (k + 1) + m = k + (m + 1) := by omega
      rw [harr] at hstep
      exact hstep

lemma mgr_shutdown_reachable : MgrReachable shutdownState := by
  refine Relation.ReflTransGen.head (MgrStep.main cancelledInit [] rfl) ?_
  refine Relation.ReflTransGen.head (MgrStep.closer _ [] rfl) ?_
  exact mgr_workers_drain maxWorkers 0 _ rfl rfl

/-- C6 counterexample: from the post-cancellation state, one interleaving
step makes `Run` return while the dispatch channel is still open and all
`maxWorkers` workers are outstanding with the wait-group at full count —
`Run` does not return "only after shutdown is complete". -/
theorem C6_run_returns_before_shutdown :
    MgrReachable earlyReturnState ∧
    earlyReturnState.returned = true ∧
    earlyReturnState.chanClosed = false ∧
    earlyReturnState.wg = maxWorkers ∧
    earlyReturnState.workers = List.replicate maxWorkers workerCancelProg :=
  ⟨mgr_earlyReturn_reachable, rfl, rfl, rfl, rfl⟩

/-- C6 amended: on cancellation `Run` returns the context's error without
synchronising with shutdown: its post-cancellation program contains no
wait-group wait, a state where `Run` has returned with the channel open and
every worker outstanding is reachable, and full shutdown (channel closed by
the dedicated goroutine, all workers exited, wait-group drained to zero) is
reachable but not awaited by `Run`. -/
theorem C6_cancellation_shutdown :
    MgrOp.wgWait ∉ runCancelProg ∧
    MgrReachable earlyReturnState ∧
    MgrReachable shutdownState :=
  ⟨by decide, mgr_earlyReturn_reachable, mgr_shutdown_reachable⟩

end Shraga
